import Mathlib

/-!
Shallow embedding of the scalar-operation algebra of casadi_math.hpp:
the operation enumeration, the per-operation static descriptors
(arity, commutativity, zero-absorption flags, print grammar), the
numeric evaluation rules, the partial-derivative rules, and the three
dispatch routines funNew, derNew and derFNew.  The operand type T is
idealised as the real numbers.
-/

namespace CasADi

/-- The Operation enum of casadi_math.hpp, in source order.
The guard value NUM_BUILT_IN_OPS is modelled separately as a numeral. -/
inductive Operation where
  | ADD | SUB | MUL | DIV
  | NEG | EXP | LOG | POW | CONSTPOW
  | SQRT | SIN | COS | TAN
  | ASIN | ACOS | ATAN
  | STEP
  | FLOOR | CEIL | EQUALITY
  | ERF | FMIN | FMAX
  | INV
  | SINH | COSH | TANH
  | PRINTME
  deriving DecidableEq, Repr

/-- The guard value of the Operation enum: the number of built-in operations. -/
def NUM_BUILT_IN_OPS : Nat := 28

/-- Decoding of a raw (unsigned char) operation code into the enum, following
the ordinals of the Operation enum declaration.  Values at or beyond
NUM_BUILT_IN_OPS decode to none: a C switch over the enum cases has no
matching case for them and falls through. -/
def decodeOp : Nat → Option Operation
  | 0 => some .ADD
  | 1 => some .SUB
  | 2 => some .MUL
  | 3 => some .DIV
  | 4 => some .NEG
  | 5 => some .EXP
  | 6 => some .LOG
  | 7 => some .POW
  | 8 => some .CONSTPOW
  | 9 => some .SQRT
  | 10 => some .SIN
  | 11 => some .COS
  | 12 => some .TAN
  | 13 => some .ASIN
  | 14 => some .ACOS
  | 15 => some .ATAN
  | 16 => some .STEP
  | 17 => some .FLOOR
  | 18 => some .CEIL
  | 19 => some .EQUALITY
  | 20 => some .ERF
  | 21 => some .FMIN
  | 22 => some .FMAX
  | 23 => some .INV
  | 24 => some .SINH
  | 25 => some .COSH
  | 26 => some .TANH
  | 27 => some .PRINTME
  | _ => none

/-- ndeps per operation: the BinaryOperation specializations return 2, the
unary operations (specialized as UnaryOperation, with the generic
BinaryOperation template forwarding) return 1. -/
def ndeps : Operation → Nat
  | .ADD => 2
  | .SUB => 2
  | .MUL => 2
  | .DIV => 2
  | .POW => 2
  | .CONSTPOW => 2
  | .EQUALITY => 2
  | .FMIN => 2
  | .FMAX => 2
  | .PRINTME => 2
  | _ => 1

/-- isCommutative per operation, as read off the class of each operation:
the binary specializations record their own value and the generic
BinaryOperation template (used for every unary operation) returns true. -/
def isCommutative : Operation → Bool
  | .SUB => false
  | .DIV => false
  | .POW => false
  | .CONSTPOW => false
  | .EQUALITY => false
  | .PRINTME => false
  | _ => true

/-- UnaryOperation f0_is_zero per unary operation; the generic
UnaryOperation template returns false.  Only the 18 unary operations
are specialized; the value for binary tags is the generic false and is
never consulted by the flag tables below. -/
def f0_is_zero : Operation → Bool
  | .NEG => true
  | .SQRT => true
  | .SIN => true
  | .TAN => true
  | .ASIN => true
  | .ATAN => true
  | .FLOOR => true
  | .CEIL => true
  | .ERF => true
  | .SINH => true
  | .TANH => true
  | _ => false

/-- f00_is_zero per operation: binary specializations record their own
value; for unary operations the generic BinaryOperation template returns
UnaryOperation f0_is_zero. -/
def f00_is_zero : Operation → Bool
  | .ADD => true
  | .SUB => true
  | .MUL => true
  | .DIV => false
  | .POW => false
  | .CONSTPOW => false
  | .EQUALITY => false
  | .FMIN => true
  | .FMAX => true
  | .PRINTME => false
  | o => f0_is_zero o

/-- f0x_is_zero per operation: binary specializations record their own
value; for unary operations the generic BinaryOperation template returns
UnaryOperation f0_is_zero. -/
def f0x_is_zero : Operation → Bool
  | .ADD => false
  | .SUB => false
  | .MUL => true
  | .DIV => true
  | .POW => false
  | .CONSTPOW => false
  | .EQUALITY => false
  | .FMIN => false
  | .FMAX => false
  | .PRINTME => false
  | o => f0_is_zero o

/-- fx0_is_zero per operation: binary specializations record their own
value; for unary operations the generic BinaryOperation template returns
false. -/
def fx0_is_zero : Operation → Bool
  | .MUL => true
  | _ => false

/-- The Gauss error function, the idealisation of the C erf used by
UnaryOperation ERF fcn. -/
noncomputable def erf (x : ℝ) : ℝ :=
  (2 / Real.sqrt Real.pi) * ∫ t in (0:ℝ)..x, Real.exp (-(t * t))

/-- The numeric evaluation rule fcn of each operation class, over the
real numbers.  For unary operations the second operand is ignored, as in
the generic BinaryOperation fcn which forwards only x.  Boolean results
(STEP, EQUALITY) are converted to 0 or 1 as the C conversion to T does. -/
noncomputable def fcn (o : Operation) (x y : ℝ) : ℝ :=
  match o with
  | .ADD => x + y
  | .SUB => x - y
  | .MUL => x * y
  | .DIV => x / y
  | .NEG => -x
  | .EXP => Real.exp x
  | .LOG => Real.log x
  | .POW => Real.rpow x y
  | .CONSTPOW => Real.rpow x y
  | .SQRT => Real.sqrt x
  | .SIN => Real.sin x
  | .COS => Real.cos x
  | .TAN => Real.tan x
  | .ASIN => Real.arcsin x
  | .ACOS => Real.arccos x
  | .ATAN => Real.arctan x
  | .STEP => if 0 ≤ x then 1 else 0
  | .FLOOR => (Int.floor x : ℝ)
  | .CEIL => (Int.ceil x : ℝ)
  | .EQUALITY => if x = y then 1 else 0
  | .ERF => erf x
  | .FMIN => min x y
  | .FMAX => max x y
  | .INV => 1 / x
  | .SINH => Real.sinh x
  | .COSH => Real.cosh x
  | .TANH => Real.tanh x
  | .PRINTME => x

/-- The UnaryOperation der rule: d[0] as a function of the operand x and
the precomputed output f.  Binary tags have no UnaryOperation
specialization; their arm returns 0 and is never reached through derOp. -/
noncomputable def derUnary (o : Operation) (x f : ℝ) : ℝ :=
  match o with
  | .NEG => -1
  | .EXP => f
  | .LOG => 1 / x
  | .SQRT => 1 / (f + f)
  | .SIN => Real.cos x
  | .COS => -Real.sin x
  | .TAN => 1 / (Real.cos x * Real.cos x)
  | .ASIN => 1 / Real.sqrt (1 - x * x)
  | .ACOS => -(1 / Real.sqrt (1 - x * x))
  | .ATAN => 1 / (1 + x * x)
  | .STEP => 0
  | .FLOOR => 0
  | .CEIL => 0
  | .ERF => (2 / Real.sqrt Real.pi) * Real.exp (-(x * x))
  | .INV => -(f * f)
  | .SINH => Real.cosh x
  | .COSH => -Real.sinh x
  | .TANH => 1 - f * f
  | _ => 0

/-- The BinaryOperation der rule of each operation class: the pair
(d[0], d[1]).  Binary specializations record their own rule; for unary
operations the generic BinaryOperation template calls UnaryOperation der
and sets d[1] = 0.  FMIN and FMAX convert the comparison to 0 or 1 and
d[1] is the logical negation of d[0], as in the C code. -/
noncomputable def derOp (o : Operation) (x y f : ℝ) : ℝ × ℝ :=
  match o with
  | .ADD => (1, 1)
  | .SUB => (1, -1)
  | .MUL => (y, x)
  | .DIV => (1 / y, -(f / y))
  | .POW => (y * Real.rpow x (y - 1), Real.log x * f)
  | .CONSTPOW => (y * Real.rpow x (y - 1), 0)
  | .EQUALITY => (0, 0)
  | .FMIN => (if x ≤ y then 1 else 0, if x ≤ y then 0 else 1)
  | .FMAX => (if y ≤ x then 1 else 0, if y ≤ x then 0 else 1)
  | .PRINTME => (1, 0)
  | o => (derUnary o x f, 0)

/-- The body of the derNew switch for a valid operation code: every case
calls the der rule of its own class, except the PRINTME case, which
calls the der rule of the TANH class. -/
noncomputable def derNewSwitch (o : Operation) (x y f : ℝ) : ℝ × ℝ :=
  match o with
  | .PRINTME => derOp .TANH x y f
  | o => derOp o x y f

/-- casadi_math funNew: a switch over the raw operation code.  Each valid
code evaluates the fcn of its class into f; a code with no case leaves
f unchanged (the switch has no default), so funNew is modelled as a
function of the incoming value of f. -/
noncomputable def funNew (op : Nat) (x y f : ℝ) : ℝ :=
  match decodeOp op with
  | some o => fcn o x y
  | none => f

/-- casadi_math derNew: a switch over the raw operation code.  Each valid
code writes the partials of derNewSwitch into d; a code with no case
leaves d[0] and d[1] unchanged, so derNew is modelled as a function of
the incoming pair d. -/
noncomputable def derNew (op : Nat) (x y f : ℝ) (d : ℝ × ℝ) : ℝ × ℝ :=
  match decodeOp op with
  | some o => derNewSwitch o x y f
  | none => d

/-- casadi_math derFNew: each case first evaluates fcn into the local
temporary ff, then computes the partials from ff; the PRINTME case
evaluates the PRINTME fcn but calls the TANH der rule, mirroring the
source.  The final result is (ff, d). -/
noncomputable def derFNew (o : Operation) (x y : ℝ) : ℝ × ℝ × ℝ :=
  match o with
  | .ADD => let ff := fcn .ADD x y; (ff, derOp .ADD x y ff)
  | .SUB => let ff := fcn .SUB x y; (ff, derOp .SUB x y ff)
  | .MUL => let ff := fcn .MUL x y; (ff, derOp .MUL x y ff)
  | .DIV => let ff := fcn .DIV x y; (ff, derOp .DIV x y ff)
  | .NEG => let ff := fcn .NEG x y; (ff, derOp .NEG x y ff)
  | .EXP => let ff := fcn .EXP x y; (ff, derOp .EXP x y ff)
  | .LOG => let ff := fcn .LOG x y; (ff, derOp .LOG x y ff)
  | .POW => let ff := fcn .POW x y; (ff, derOp .POW x y ff)
  | .CONSTPOW => let ff := fcn .CONSTPOW x y; (ff, derOp .CONSTPOW x y ff)
  | .SQRT => let ff := fcn .SQRT x y; (ff, derOp .SQRT x y ff)
  | .SIN => let ff := fcn .SIN x y; (ff, derOp .SIN x y ff)
  | .COS => let ff := fcn .COS x y; (ff, derOp .COS x y ff)
  | .TAN => let ff := fcn .TAN x y; (ff, derOp .TAN x y ff)
  | .ASIN => let ff := fcn .ASIN x y; (ff, derOp .ASIN x y ff)
  | .ACOS => let ff := fcn .ACOS x y; (ff, derOp .ACOS x y ff)
  | .ATAN => let ff := fcn .ATAN x y; (ff, derOp .ATAN x y ff)
  | .STEP => let ff := fcn .STEP x y; (ff, derOp .STEP x y ff)
  | .FLOOR => let ff := fcn .FLOOR x y; (ff, derOp .FLOOR x y ff)
  | .CEIL => let ff := fcn .CEIL x y; (ff, derOp .CEIL x y ff)
  | .EQUALITY => let ff := fcn .EQUALITY x y; (ff, derOp .EQUALITY x y ff)
  | .ERF => let ff := fcn .ERF x y; (ff, derOp .ERF x y ff)
  | .FMIN => let ff := fcn .FMIN x y; (ff, derOp .FMIN x y ff)
  | .FMAX => let ff := fcn .FMAX x y; (ff, derOp .FMAX x y ff)
  | .INV => let ff := fcn .INV x y; (ff, derOp .INV x y ff)
  | .SINH => let ff := fcn .SINH x y; (ff, derOp .SINH x y ff)
  | .COSH => let ff := fcn .COSH x y; (ff, derOp .COSH x y ff)
  | .TANH => let ff := fcn .TANH x y; (ff, derOp .TANH x y ff)
  | .PRINTME => let ff := fcn .PRINTME x y; (ff, derOp .TANH x y ff)

/-- Modelled from the spec: eval_and_partials computes f = eval(op,x,y)
first and then the partials from that freshly computed f.  Stated with
the dispatch-level evaluator and partials of this file for comparison
with derFNew. -/
noncomputable def evalThenPartials (o : Operation) (x y : ℝ) : ℝ × ℝ × ℝ :=
  let f := fcn o x y
  (f, derNewSwitch o x y f)

/-- Execution of derFNew when the output reference f aliases one of the
operand cells: the state holds the cells of x and y; tgt selects which
cell f aliases.  Following the statement order of the source, both
operands are read while computing the temporary ff and the partials;
only afterwards is ff stored through the alias, and the first component
returned is the value then read back through the alias. -/
noncomputable def derFNewAliased (o : Operation) (tgt : Bool) (x0 y0 : ℝ) :
    ℝ × ℝ × ℝ :=
  let s0 : ℝ × ℝ := (x0, y0)
  let ff : ℝ := fcn o s0.1 s0.2
  let d : ℝ × ℝ := derNewSwitch o s0.1 s0.2 ff
  let s1 : ℝ × ℝ := if tgt then (ff, s0.2) else (s0.1, ff)
  ((if tgt then s1.1 else s1.2), d)

/-- Print pre-string of each operation class (the unary classes supply
the pre-string used by the generic BinaryOperation forwarding). -/
def printPre : Operation → String
  | .ADD => "("
  | .SUB => "("
  | .MUL => "("
  | .DIV => "("
  | .NEG => "(-"
  | .EXP => "exp("
  | .LOG => "log("
  | .POW => "pow("
  | .CONSTPOW => "pow("
  | .SQRT => "sqrt("
  | .SIN => "sin("
  | .COS => "cos("
  | .TAN => "tan("
  | .ASIN => "asin("
  | .ACOS => "acos("
  | .ATAN => "atan("
  | .STEP => "("
  | .FLOOR => "floor("
  | .CEIL => "ceil("
  | .EQUALITY => "("
  | .ERF => "erf("
  | .FMIN => "fmin("
  | .FMAX => "fmax("
  | .INV => "(1/"
  | .SINH => "sinh("
  | .COSH => "cosh("
  | .TANH => "tanh("
  | .PRINTME => "printme("

/-- Print separator of each operation class: the binary specializations
record their separator; for unary operations the generic BinaryOperation
printSep emits nothing. -/
def printSep : Operation → String
  | .ADD => "+"
  | .SUB => "-"
  | .MUL => "*"
  | .DIV => "/"
  | .POW => ","
  | .CONSTPOW => ","
  | .EQUALITY => "=="
  | .FMIN => ","
  | .FMAX => ","
  | .PRINTME => ","
  | _ => ""

/-- Print post-string of each operation class. -/
def printPost : Operation → String
  | .STEP => ">=0)"
  | .EXP => ")"
  | .LOG => ")"
  | .POW => ")"
  | .CONSTPOW => ")"
  | .SQRT => ")"
  | .SIN => ")"
  | .COS => ")"
  | .TAN => ")"
  | .ASIN => ")"
  | .ACOS => ")"
  | .ATAN => ")"
  | .FLOOR => ")"
  | .CEIL => ")"
  | .ERF => ")"
  | .SINH => ")"
  | .COSH => ")"
  | .TANH => ")"
  | _ => ")"

/-- The print entry of each operation, as populated in the print table:
binary specializations render pre, x, separator, y, post; for unary
operations the generic BinaryOperation print renders pre, x, post and
ignores the second operand. -/
def printOp (o : Operation) (x y : String) : String :=
  match o with
  | .ADD => "(" ++ x ++ "+" ++ y ++ ")"
  | .SUB => "(" ++ x ++ "-" ++ y ++ ")"
  | .MUL => "(" ++ x ++ "*" ++ y ++ ")"
  | .DIV => "(" ++ x ++ "/" ++ y ++ ")"
  | .NEG => "(-" ++ x ++ ")"
  | .EXP => "exp(" ++ x ++ ")"
  | .LOG => "log(" ++ x ++ ")"
  | .POW => "pow(" ++ x ++ "," ++ y ++ ")"
  | .CONSTPOW => "pow(" ++ x ++ "," ++ y ++ ")"
  | .SQRT => "sqrt(" ++ x ++ ")"
  | .SIN => "sin(" ++ x ++ ")"
  | .COS => "cos(" ++ x ++ ")"
  | .TAN => "tan(" ++ x ++ ")"
  | .ASIN => "asin(" ++ x ++ ")"
  | .ACOS => "acos(" ++ x ++ ")"
  | .ATAN => "atan(" ++ x ++ ")"
  | .STEP => "(" ++ x ++ ">=0)"
  | .FLOOR => "floor(" ++ x ++ ")"
  | .CEIL => "ceil(" ++ x ++ ")"
  | .EQUALITY => "(" ++ x ++ "==" ++ y ++ ")"
  | .ERF => "erf(" ++ x ++ ")"
  | .FMIN => "fmin(" ++ x ++ "," ++ y ++ ")"
  | .FMAX => "fmax(" ++ x ++ "," ++ y ++ ")"
  | .INV => "(1/" ++ x ++ ")"
  | .SINH => "sinh(" ++ x ++ ")"
  | .COSH => "cosh(" ++ x ++ ")"
  | .TANH => "tanh(" ++ x ++ ")"
  | .PRINTME => "printme(" ++ x ++ "," ++ y ++ ")"

/-- Any raw code at or beyond the enum guard value decodes to none. -/
theorem decodeOp_ge (k : Nat) : decodeOp (k + NUM_BUILT_IN_OPS) = none := rfl

/-- Claim C1: the claim states that the partials rule for COSH returns
d0 = sinh(x); the code instead computes d0 = -sinh(x).  At the failing
input x = 1 the dispatch returns -sinh(1), which differs from the
claimed sinh(1). -/
theorem cosh_partial_flipped :
    (derNewSwitch Operation.COSH 1 0 0).1 = -Real.sinh 1 ∧
    (derNewSwitch Operation.COSH 1 0 0).1 ≠ Real.sinh 1 := by
  have h1 : (derNewSwitch Operation.COSH 1 0 0).1 = -Real.sinh 1 := rfl
  refine ⟨h1, ?_⟩
  rw [h1]
  have hp : 0 < Real.sinh 1 := Real.sinh_pos_iff.mpr one_pos
  intro h
  linarith

/-- Claim C2: the claim states that the partials dispatch for PRINTME
returns (1, 0); the code routes PRINTME through the TANH rule, giving
d0 = 1 - f*f.  At the failing input f = 1 the dispatch returns (0, 0),
whose first component is not 1. -/
theorem printme_partials_via_tanh :
    derNewSwitch Operation.PRINTME 0 0 1 = (0, 0) ∧
    (derNewSwitch Operation.PRINTME 0 0 1).1 ≠ 1 := by
  have h : derNewSwitch Operation.PRINTME 0 0 1 = ((1 - 1 * 1 : ℝ), (0 : ℝ)) := rfl
  constructor
  · rw [h]; norm_num
  · rw [h]; norm_num

/-- Claim C3, counterexample: NEG is flagged commutative, yet the
evaluator ignores the second operand, so eval(NEG, 0, 1) = -0 = 0 while
eval(NEG, 1, 0) = -1. -/
theorem commutative_flag_counterexample :
    isCommutative Operation.NEG = true ∧
    fcn Operation.NEG 0 1 ≠ fcn Operation.NEG 1 0 := by
  refine ⟨rfl, ?_⟩
  have h0 : fcn Operation.NEG 0 1 = 0 := by norm_num [fcn]
  have h1 : fcn Operation.NEG 1 0 = -1 := rfl
  rw [h0, h1]; norm_num

/-- Claim C3, amended: for every binary operation (ndeps = 2) flagged
commutative, the evaluator is symmetric in its operands over the reals. -/
theorem commutative_binary_sound (o : Operation) (hnd : ndeps o = 2)
    (hc : isCommutative o = true) (x y : ℝ) : fcn o x y = fcn o y x := by
  cases o <;>
    first
      | exact absurd hnd (by decide)
      | exact absurd hc (by decide)
      | exact add_comm x y
      | exact mul_comm x y
      | exact min_comm x y
      | exact max_comm x y

/-- Witness for the amended claim C3 at ADD with operands 1 and 2. -/
theorem commutative_binary_sound_witness :
    fcn Operation.ADD 1 2 = fcn Operation.ADD 2 1 :=
  commutative_binary_sound Operation.ADD (by decide) (by decide) 1 2

/-- Claim C4: each zero-absorption flag that is true for an operation is
sound for the real evaluator: f00_is_zero forces eval(op, 0, 0) = 0,
f0x_is_zero forces eval(op, 0, y) = 0 for nonzero y, and fx0_is_zero
forces eval(op, x, 0) = 0 for nonzero x. -/
theorem zero_absorption (o : Operation) (x y : ℝ) :
    (f00_is_zero o = true → fcn o 0 0 = 0) ∧
    (f0x_is_zero o = true → y ≠ 0 → fcn o 0 y = 0) ∧
    (fx0_is_zero o = true → x ≠ 0 → fcn o x 0 = 0) := by
  cases o <;>
    refine ⟨fun h => ?_, fun h hy => ?_, fun h hx => ?_⟩ <;>
    first
      | exact absurd h (by decide)
      | simp [fcn, erf, intervalIntegral.integral_same, Real.tan_zero,
          Real.arcsin_zero, Real.arctan_zero, Real.sinh_zero, Real.tanh_zero]

/-- Witness for claim C4 at MUL, whose three zero-absorption flags are
all true, with nonzero companion operands equal to 1. -/
theorem zero_absorption_witness :
    fcn Operation.MUL 0 0 = 0 ∧ fcn Operation.MUL 0 1 = 0 ∧
    fcn Operation.MUL 1 0 = 0 :=
  ⟨(zero_absorption Operation.MUL 1 1).1 (by decide),
   (zero_absorption Operation.MUL 1 1).2.1 (by decide) one_ne_zero,
   (zero_absorption Operation.MUL 1 1).2.2 (by decide) one_ne_zero⟩

/-- Claim C5: derFNew computes f first and then the partials from that
freshly computed f, so it equals the composition of the evaluator with
the partials dispatch; and the aliased execution, in which the output
reference shares a cell with either operand, returns the same triple
because the store through the alias happens after every operand read. -/
theorem derF_eval_then_partials (o : Operation) (x y : ℝ) (tgt : Bool) :
    derFNew o x y = evalThenPartials o x y ∧
    derFNewAliased o tgt x y = derFNew o x y := by
  cases o <;> exact ⟨rfl, by cases tgt <;> rfl⟩

/-- Claim C6: for every unary operation the partials dispatch sets the
second partial to exactly zero. -/
theorem unary_second_partial_zero (o : Operation) (x y f : ℝ)
    (h : ndeps o = 1) : (derNewSwitch o x y f).2 = 0 := by
  cases o <;> first | rfl | exact absurd h (by decide)

/-- Witness for claim C6 at NEG with operands 1, 2 and output 3. -/
theorem unary_second_partial_zero_witness :
    (derNewSwitch Operation.NEG 1 2 3).2 = 0 :=
  unary_second_partial_zero Operation.NEG 1 2 3 (by decide)

/-- Claim C7: eval_and_partials at DIV with operands 6 and 2 returns
exactly (3, 0.5, -1.5). -/
theorem derF_div_six_two : derFNew Operation.DIV 6 2 = (3, 0.5, -1.5) := by
  norm_num [derFNew, fcn, derOp]

/-- Claim C8: the printer renders binary operations as pre, x, separator,
y, post and unary operations as pre, x, post with an empty separator,
ignoring the second operand; with the three concrete renderings of the
spec. -/
theorem print_grammar :
    (∀ (o : Operation) (x y : String),
        printOp o x y =
          if ndeps o = 2 then
            printPre o ++ x ++ printSep o ++ y ++ printPost o
          else printPre o ++ x ++ printPost o) ∧
    (∀ o : Operation, ndeps o = 2 ∨ printSep o = "") ∧
    printOp Operation.ADD "a" "b" = "(a+b)" ∧
    printOp Operation.SQRT "a" "b" = "sqrt(a)" ∧
    printOp Operation.INV "a" "b" = "(1/a)" := by
  refine ⟨fun o x y => ?_, fun o => ?_, rfl, rfl, rfl⟩
  · cases o <;> rfl
  · cases o <;> decide

/-- Claim C9: a raw operation code at or beyond NUM_BUILT_IN_OPS (and
within the unsigned-byte range) matches no case of the funNew and derNew
switches, so the output f and the pair d are returned unchanged. -/
theorem out_of_range_nop (op : Nat) (x y f : ℝ) (d : ℝ × ℝ)
    (h1 : NUM_BUILT_IN_OPS ≤ op) (h2 : op ≤ 255) :
    funNew op x y f = f ∧ derNew op x y f d = d := by
  have h1n : 28 ≤ op := h1
  obtain ⟨k, rfl⟩ : ∃ k, op = k + NUM_BUILT_IN_OPS :=
    ⟨op - 28, by unfold NUM_BUILT_IN_OPS; omega⟩
  constructor
  · unfold funNew
    rw [decodeOp_ge]
  · unfold derNew
    rw [decodeOp_ge]

/-- Witness for claim C9 at raw code 100. -/
theorem out_of_range_nop_witness :
    funNew 100 1 2 5 = 5 ∧ derNew 100 1 2 5 (7, 9) = (7, 9) :=
  out_of_range_nop 100 1 2 5 (7, 9) (by decide) (by decide)

/-- Claim C10: for every unary operation the binary-interface
zero-absorption flags are derived from the single unary flag: the
first-operand-zero flag equals the both-operands-zero flag and the
second-operand-zero flag is always false. -/
theorem unary_zero_flags (o : Operation) (h : ndeps o = 1) :
    f0x_is_zero o = f00_is_zero o ∧ fx0_is_zero o = false := by
  cases o <;> first | exact ⟨rfl, rfl⟩ | exact absurd h (by decide)

/-- Witness for claim C10 at NEG. -/
theorem unary_zero_flags_witness :
    f0x_is_zero Operation.NEG = f00_is_zero Operation.NEG ∧
    fx0_is_zero Operation.NEG = false :=
  unary_zero_flags Operation.NEG (by decide)

end CasADi
